import Mathlib

/-!
Shallow embedding of the state-derivation layer of the pcdsdevices valve and
stopper modules: command enumerations, the PPS summary lookup table, the
GateValve interlock evaluator, the lightpath state calculators of VRC, VFS
and VRCNO, and the exception hierarchy around InterlockError.

Machine conventions: EPICS signal readings are modelled as Int with Python
truthiness; transmissions are modelled as exact rationals (the source only
ever uses the float literals 0.0 and 1.0, both exactly representable); an
external signal write is a pair of the PV suffix and the written integer.
-/

set_option autoImplicit false

/-- An external signal write: PV suffix and written integer value. -/
abbrev Write := String × Int

/-- Python truthiness of an integer signal reading: `bool(x)` is true exactly
when `x` is nonzero. -/
def truthy (x : Int) : Bool := x != 0

namespace stopper

/-- Command aliases for the stopper CMD signal (devices/stopper.py,
class Commands). -/
inductive Commands where
  | close_stopper
  | open_stopper
deriving DecidableEq, Repr

/-- Integer write codes of the stopper command enum: close_stopper = 0,
open_stopper = 1. -/
def Commands.value : Commands → Int
  | .close_stopper => 0
  | .open_stopper => 1

/-- PPS summary lookup table (devices/stopper.py, the pvstate_class dict for
the summary signal): 0 maps to out, 1 to 3 map to unknown, 4 maps to in;
other raw values are outside the declared domain. -/
def PPS.summary : Nat → Option String
  | 0 => some "out"
  | 1 => some "unknown"
  | 2 => some "unknown"
  | 3 => some "unknown"
  | 4 => some "in"
  | _ => none

/-- Stopper.open (devices/stopper.py): writes the open command code to the
CMD signal unconditionally; this device family has no interlock evaluator. -/
def Stopper.openCmd : List Write := [(":CMD", Commands.value .open_stopper)]

/-- Stopper.close (devices/stopper.py): writes the close command code to the
CMD signal unconditionally. -/
def Stopper.closeCmd : List Write := [(":CMD", Commands.value .close_stopper)]

end stopper

namespace valve

/-- Command aliases for opening and closing valves (valve.py, class
Commands, IntEnum). -/
inductive Commands where
  | close_valve
  | open_valve
deriving DecidableEq, Repr

/-- Integer write codes of the valve command enum: close_valve = 0,
open_valve = 1. -/
def Commands.value : Commands → Int
  | .close_valve => 0
  | .open_valve => 1

/-- The Python exception classes relevant here. InterlockError derives from
PermissionError (valve.py line 24); the remaining edges are the builtin
Python exception hierarchy. ValueError stands in for a generic error class
unrelated to permission failures. -/
inductive ExcClass where
  | BaseException
  | Exception
  | OSError
  | PermissionError
  | InterlockError
  | ValueError
deriving DecidableEq, Repr

/-- Direct base class of each exception class. -/
def ExcClass.base : ExcClass → Option ExcClass
  | .InterlockError => some .PermissionError
  | .PermissionError => some .OSError
  | .OSError => some .Exception
  | .ValueError => some .Exception
  | .Exception => some .BaseException
  | .BaseException => none

/-- Fueled walk up the base-class chain. -/
def ExcClass.subclassAux : Nat → ExcClass → ExcClass → Bool
  | 0, _, _ => false
  | fuel + 1, c, d =>
    c == d ||
      match c.base with
      | none => false
      | some b => ExcClass.subclassAux fuel b d

/-- Whether c is d or inherits from d; a handler for class d catches an
exception of class c exactly when this holds. Fuel 6 exceeds the length of
every base-class chain in ExcClass. -/
def ExcClass.isSubclass (c d : ExcClass) : Bool :=
  ExcClass.subclassAux 6 c d

/-- The InterlockError exception value carrying its message (valve.py,
class InterlockError). -/
structure InterlockError where
  msg : String
deriving DecidableEq, Repr

/-- Modelled from the spec: the state enumeration of the missing
pcdsdevices stopper state positioner, whose values name the two commandable
positions; OUT requests removal from the beam (valve open), IN requests
insertion (valve closed). -/
inductive ValveState where
  | IN
  | OUT
deriving DecidableEq, Repr

/-- GateValve.interlocked (valve.py): `not bool(self.interlock.get())`,
where the interlock signal reads 1 when the valve is OK to open. -/
def GateValve.interlocked (interlock : Int) : Bool :=
  ! truthy interlock

/-- GateValve.check_value (valve.py): raise InterlockError when the
requested state is OUT while the interlock is active, otherwise return the
value. The `super().check_value` call of the missing pcdsdevices stopper is
Modelled from the spec: it validates the requested state against the state
enumeration and is the identity on valid states. -/
def GateValve.check_value (value : ValveState) (interlock : Int) :
    Except InterlockError ValveState :=
  if value == ValveState.OUT && GateValve.interlocked interlock then
    Except.error ⟨"Valve is currently forced closed"⟩
  else
    Except.ok value

/-- Modelled from the spec: the missing pcdsdevices stopper state
positioner dispatch underlying GateValve.open and GateValve.close. It
consults check_value at command time, rejects the command before any signal
write when the check raises, and only on permit writes the command code to
the command signal (OPN_SW): open writes 1, close writes 0. -/
def GateValve.requestState (value : ValveState) (interlock : Int) :
    Except InterlockError (List Write) :=
  match GateValve.check_value value interlock with
  | Except.error e => Except.error e
  | Except.ok v =>
      Except.ok
        [(":OPN_SW",
          if v == ValveState.OUT then Commands.value .open_valve
          else Commands.value .close_valve)]

/-- GateValve open entry point: request the OUT state. -/
def GateValve.openValve (interlock : Int) : Except InterlockError (List Write) :=
  GateValve.requestState ValveState.OUT interlock

/-- GateValve close entry point: request the IN state. -/
def GateValve.closeValve (interlock : Int) : Except InterlockError (List Write) :=
  GateValve.requestState ValveState.IN interlock

/-- The external writes actually performed by a command attempt: none when
the command raised before writing. -/
def writesOf (r : Except InterlockError (List Write)) : List Write :=
  match r with
  | Except.error _ => []
  | Except.ok ws => ws

/-- The LightpathState value returned by calc_lightpath_state: the
inserted/removed flags and the transmission assigned to each output
branch. -/
structure LightpathState where
  inserted : Bool
  removed : Bool
  output : List (String × ℚ)
deriving DecidableEq, Repr

/-- The lightpath-relevant slice of device state shared by VRC, VFS and
VRCNO: the configured output branches of the LightpathMixin, and the
_inserted and _removed instance attributes mutated by the callback. -/
structure LightpathDev where
  output_branches : List String
  _inserted : Bool
  _removed : Bool
deriving DecidableEq, Repr

/-- VRC.calc_lightpath_state (valve.py lines 213 to 227): sets
_inserted = bool(closed_limit) and _removed = bool(open_limit), computes
trans = 0.0 if inserted else 1.0, and returns the LightpathState whose
output maps the first output branch to trans. The functions of this layer
perform no external signal writes, recorded by the empty write list; the
result is none exactly when the device has no output branch (the Python
subscript output_branches[0] would raise there). -/
def VRC.calc_lightpath_state (dev : LightpathDev)
    (open_limit closed_limit : Int) :
    Option (LightpathDev × LightpathState × List Write) :=
  match dev.output_branches with
  | [] => none
  | b :: _ =>
    let ins := truthy closed_limit
    let rem := truthy open_limit
    let trans : ℚ := if ins then 0 else 1
    some (⟨dev.output_branches, ins, rem⟩, ⟨ins, rem, [(b, trans)]⟩, [])

/-- VFS.calc_lightpath_state (valve.py lines 512 to 524): identical rule
over the fast shutter position signals, inserted from position_close and
removed from position_open. -/
def VFS.calc_lightpath_state (dev : LightpathDev)
    (position_open position_close : Int) :
    Option (LightpathDev × LightpathState × List Write) :=
  match dev.output_branches with
  | [] => none
  | b :: _ =>
    let ins := truthy position_close
    let rem := truthy position_open
    let trans : ℚ := if ins then 0 else 1
    some (⟨dev.output_branches, ins, rem⟩, ⟨ins, rem, [(b, trans)]⟩, [])

/-- VRCNO.calc_lightpath_state (valve.py lines 623 to 635): identical rule
for the normally-open valve. -/
def VRCNO.calc_lightpath_state (dev : LightpathDev)
    (open_limit closed_limit : Int) :
    Option (LightpathDev × LightpathState × List Write) :=
  match dev.output_branches with
  | [] => none
  | b :: _ =>
    let ins := truthy closed_limit
    let rem := truthy open_limit
    let trans : ℚ := if ins then 0 else 1
    some (⟨dev.output_branches, ins, rem⟩, ⟨ins, rem, [(b, trans)]⟩, [])

/-- Whether VRCClsLS declares an open limit switch component: it inherits
only VVC and declares exactly the state and closed_limit components
(valve.py lines 230 to 239), so it has none. -/
def VRCClsLS.has_open_limit : Bool := false

/-- Whether VRCClsLS declares a closed limit switch component. -/
def VRCClsLS.has_closed_limit : Bool := true

/-- The lightpath calculator of VRC: VRC inherits LightpathMixin and
defines calc_lightpath_state. -/
def VRC.lightpath_calc :
    Option (LightpathDev → Int → Int →
      Option (LightpathDev × LightpathState × List Write)) :=
  some VRC.calc_lightpath_state

/-- The lightpath calculator of VRCClsLS: the class inherits only VVC, not
LightpathMixin, and defines no calc_lightpath_state (valve.py lines 230 to
239), so it has none and computes no inserted or removed flag at all. -/
def VRCClsLS.lightpath_calc :
    Option (LightpathDev → Int → Int →
      Option (LightpathDev × LightpathState × List Write)) :=
  none

/-- The two writable request lines declared by VFS (valve.py lines 430 to
444): request_open on OPN_SW and request_close on CLS_SW. -/
structure VFSLines where
  request_open : Int
  request_close : Int
deriving DecidableEq, Repr

/-- Modelled from the spec: the command dispatcher for dual-signal devices.
VFS only declares the two request lines in this file and the dispatcher
itself is not part of it; per the spec, dispatch asserts exactly one
request line and always clears the opposing request line before or together
with asserting the requested one, since simultaneous assertion resolves to
closed by the hardware contract. -/
def VFS.dispatch (cmd : Commands) (s : VFSLines) : VFSLines × List Write :=
  match cmd, s with
  | .open_valve, _ => (⟨1, 0⟩, [(":CLS_SW", 0), (":OPN_SW", 1)])
  | .close_valve, _ => (⟨0, 1⟩, [(":OPN_SW", 0), (":CLS_SW", 1)])

end valve

/-- C1: for the device with an interlock evaluator (GateValve), open never
causes a write to the command signal when the interlock check denies: on
denial the command is rejected with InterlockError before any signal write,
and zero writes reach the signal source. -/
theorem gatevalve_open_denied_no_write (interlock : Int)
    (h : valve.GateValve.interlocked interlock = true) :
    (∃ e, valve.GateValve.openValve interlock = Except.error e) ∧
    valve.writesOf (valve.GateValve.openValve interlock) = [] := by
  simp [valve.GateValve.openValve, valve.GateValve.requestState,
    valve.GateValve.check_value, h, valve.writesOf]

/-- Witness for C1 at the concrete reading interlock = 0 (not OK to open). -/
theorem gatevalve_open_denied_no_write_witness :
    valve.GateValve.interlocked 0 = true ∧
    ((∃ e, valve.GateValve.openValve 0 = Except.error e) ∧
      valve.writesOf (valve.GateValve.openValve 0) = []) :=
  ⟨by decide, gatevalve_open_denied_no_write 0 (by decide)⟩

/-- C2: for every pair of integer limit readings, VRC.calc_lightpath_state
returns inserted = bool(closed_limit), removed = bool(open_limit) and
transmission 0 if inserted else 1 on the single declared output branch,
with no external writes. -/
theorem vrc_calc_lightpath_rule (dev : valve.LightpathDev)
    (open_limit closed_limit : Int) (b : String) (bs : List String)
    (h : dev.output_branches = b :: bs) :
    valve.VRC.calc_lightpath_state dev open_limit closed_limit =
      some (⟨dev.output_branches, truthy closed_limit, truthy open_limit⟩,
        ⟨truthy closed_limit, truthy open_limit,
          [(b, if truthy closed_limit then (0 : ℚ) else 1)]⟩, []) := by
  simp [valve.VRC.calc_lightpath_state, h]

/-- Witness for C2 at open_limit = 1, closed_limit = 0: inserted = false,
removed = true, transmission 1 on the single branch. -/
theorem vrc_calc_lightpath_rule_witness :
    (⟨["branch"], false, false⟩ : valve.LightpathDev).output_branches =
      "branch" :: [] ∧
    valve.VRC.calc_lightpath_state ⟨["branch"], false, false⟩ 1 0 =
      some (⟨["branch"], false, true⟩, ⟨false, true, [("branch", 1)]⟩, []) :=
  ⟨rfl, vrc_calc_lightpath_rule ⟨["branch"], false, false⟩ 1 0 "branch" [] rfl⟩

/-- C3: GateValve.interlocked is the negation of the interlock-ok reading;
an open request (OUT) is denied exactly when interlocked holds, and a close
request is always permitted regardless of the interlock signal, as is the
unconditional close of the legacy Stopper. -/
theorem gatevalve_interlock_open_close_policy (i : Int) :
    (valve.GateValve.interlocked i = true ↔ truthy i = false) ∧
    ((∃ e, valve.GateValve.check_value valve.ValveState.OUT i = Except.error e) ↔
      valve.GateValve.interlocked i = true) ∧
    valve.GateValve.check_value valve.ValveState.IN i =
      Except.ok valve.ValveState.IN ∧
    (∃ ws, valve.GateValve.closeValve i = Except.ok ws) ∧
    stopper.Stopper.closeCmd = [(":CMD", 0)] := by
  cases hb : truthy i <;>
    simp [valve.GateValve.interlocked, valve.GateValve.check_value,
      valve.GateValve.closeValve, valve.GateValve.requestState, hb,
      stopper.Stopper.closeCmd, stopper.Commands.value]

/-- C4: InterlockError is a subclass of PermissionError, distinct from the
generic Exception class, and a handler for it does not catch generic
errors, so a caller can catch interlock denials specifically. -/
theorem interlock_error_permission_subtype :
    valve.ExcClass.isSubclass valve.ExcClass.InterlockError
      valve.ExcClass.PermissionError = true ∧
    valve.ExcClass.InterlockError ≠ valve.ExcClass.Exception ∧
    valve.ExcClass.isSubclass valve.ExcClass.Exception
      valve.ExcClass.InterlockError = false ∧
    valve.ExcClass.isSubclass valve.ExcClass.ValueError
      valve.ExcClass.PermissionError = false := by
  decide

/-- C5: the PPS summary mapping is total over the declared domain 0..4 and
maps 0 to out, 1 to 3 to unknown and 4 to in, one label per value. -/
theorem pps_summary_total_mapping :
    (∀ n : Fin 5, (stopper.PPS.summary n.val).isSome = true) ∧
    stopper.PPS.summary 0 = some "out" ∧
    stopper.PPS.summary 1 = some "unknown" ∧
    stopper.PPS.summary 2 = some "unknown" ∧
    stopper.PPS.summary 3 = some "unknown" ∧
    stopper.PPS.summary 4 = some "in" := by
  decide

/-- C6: state derivation is idempotent and effect-free: whenever
VRC.calc_lightpath_state yields a result, its write trace is empty, and
re-evaluating on the resulting device state with the same raw inputs yields
the identical result and the identical device state. -/
theorem calc_lightpath_idempotent_no_writes
    (dev dev2 : valve.LightpathDev) (ol cl : Int)
    (lp : valve.LightpathState) (ws : List Write)
    (h : valve.VRC.calc_lightpath_state dev ol cl = some (dev2, lp, ws)) :
    ws = [] ∧
    valve.VRC.calc_lightpath_state dev2 ol cl = some (dev2, lp, []) := by
  cases hb : dev.output_branches with
  | nil => simp [valve.VRC.calc_lightpath_state, hb] at h
  | cons b bs =>
    simp [valve.VRC.calc_lightpath_state, hb] at h
    obtain ⟨h1, h2, h3⟩ := h
    subst h1; subst h2; subst h3
    simp [valve.VRC.calc_lightpath_state, hb]

/-- Witness for C6 at a concrete device and the readings 1, 0. -/
theorem calc_lightpath_idempotent_no_writes_witness :
    (valve.VRC.calc_lightpath_state ⟨["branch0"], true, false⟩ 1 0 =
      some (⟨["branch0"], false, true⟩, ⟨false, true, [("branch0", 1)]⟩, [])) ∧
    ([] : List Write) = [] ∧
    valve.VRC.calc_lightpath_state ⟨["branch0"], false, true⟩ 1 0 =
      some (⟨["branch0"], false, true⟩, ⟨false, true, [("branch0", 1)]⟩, []) :=
  ⟨rfl, calc_lightpath_idempotent_no_writes ⟨["branch0"], true, false⟩
    ⟨["branch0"], false, true⟩ 1 0 ⟨false, true, [("branch0", 1)]⟩ [] rfl⟩

/-- C7: both device families assign the stable integer write codes 0 to the
close command and 1 to the open command. -/
theorem command_codes_stable :
    stopper.Commands.value stopper.Commands.close_stopper = 0 ∧
    stopper.Commands.value stopper.Commands.open_stopper = 1 ∧
    valve.Commands.value valve.Commands.close_valve = 0 ∧
    valve.Commands.value valve.Commands.open_valve = 1 := by
  decide

/-- C8: the dual-signal dispatcher asserts exactly one request line per
command, clearing the opposing line before asserting the requested one in
the write sequence, and never leaves both request lines asserted. -/
theorem vfs_dispatch_exclusive_lines (s : valve.VFSLines) :
    valve.VFS.dispatch valve.Commands.open_valve s =
      (⟨1, 0⟩, [(":CLS_SW", 0), (":OPN_SW", 1)]) ∧
    valve.VFS.dispatch valve.Commands.close_valve s =
      (⟨0, 1⟩, [(":OPN_SW", 0), (":CLS_SW", 1)]) ∧
    ∀ cmd : valve.Commands,
      truthy (valve.VFS.dispatch cmd s).1.request_open = false ∨
      truthy (valve.VFS.dispatch cmd s).1.request_close = false := by
  refine ⟨rfl, rfl, ?_⟩
  intro cmd
  cases cmd <;> simp [valve.VFS.dispatch, truthy]

/-- C9 counterexample: the claim says the lightpath removed flag of
VRCClsLS is defined (conservatively false), but the class has no lightpath
calculator at all, so no removed flag is defined for it. -/
theorem vrcclsls_removed_flag_counterexample :
    ¬ ∃ f, valve.VRCClsLS.lightpath_calc = some f := by
  simp [valve.VRCClsLS.lightpath_calc]

/-- C9 amended: VRCClsLS declares a closed-limit signal and no open-limit
signal, and does not participate in the lightpath interface: it has no
lightpath calculator, hence no removed flag is ever computed and removed is
in particular never inferred true from the absent open-limit reading,
unlike VRC which supplies a calculator. -/
theorem vrcclsls_no_lightpath_no_inference :
    valve.VRCClsLS.has_open_limit = false ∧
    valve.VRCClsLS.has_closed_limit = true ∧
    valve.VRCClsLS.lightpath_calc = none ∧
    valve.VRC.lightpath_calc = some valve.VRC.calc_lightpath_state :=
  ⟨rfl, rfl, rfl, rfl⟩

/-- C10: at the simultaneous-limits input open_limit = 1, closed_limit = 1,
all three implementing classes return inserted = true, removed = true and
transmission 0 (the closed limit dominates), producing a result rather than
a fault. -/
theorem simultaneous_limits_closed_dominates :
    valve.VRC.calc_lightpath_state ⟨["b0"], false, false⟩ 1 1 =
      some (⟨["b0"], true, true⟩, ⟨true, true, [("b0", 0)]⟩, []) ∧
    valve.VFS.calc_lightpath_state ⟨["b0"], false, false⟩ 1 1 =
      some (⟨["b0"], true, true⟩, ⟨true, true, [("b0", 0)]⟩, []) ∧
    valve.VRCNO.calc_lightpath_state ⟨["b0"], false, false⟩ 1 1 =
      some (⟨["b0"], true, true⟩, ⟨true, true, [("b0", 0)]⟩, []) :=
  ⟨rfl, rfl, rfl⟩
